import Mathlib

/-!
Verification of the collapsible-checklist client script (src/js-sample.js).

The script, run at page-ready, does:

  function initCollapsible() {
      $('.checklist .container.collapsible').each(function() {
          var $container = $(this);
          $container.on('click', function(e) {
              if ($(e.target).is('input[type="checkbox"]') ||
                  $(e.target).is('pre') ||
                  window.getSelection().toString()) { return; }
              $(this).toggleClass('active');
              $(this).find('pre').slideToggle(200);
              e.stopPropagation();
          });
          $container.find('pre').hide();
      });
  }
  initCollapsible();
  $(document).on('DOMNodeInserted', '.checklist', function() { initCollapsible(); });

Shallow embedding: a page is a list of containers.  A container records
whether it sits under an element with class `checklist`, whether it carries
the `container` and `collapsible` classes, its `active` class, the
visibility of each descendant `pre` element (true = visible), and the
number of click handlers jQuery has attached to it (`.on` adds a new
handler on every call; it never deduplicates).  Dispatching a click runs
every attached handler in order; `e.stopPropagation()` stops bubbling to
ancestors but does not stop the remaining handlers on the same element.
`slideToggle` / `hide` are modelled by their eventual visibility effect.
-/

namespace CollapsibleChecklist

/-- A DOM container, as far as the script observes and mutates it. -/
structure Container where
  underChecklist : Bool
  hasContainerClass : Bool
  hasCollapsibleClass : Bool
  active : Bool
  pres : List Bool
  handlers : Nat
deriving DecidableEq, Repr

/-- The jQuery selector `.checklist .container.collapsible`: the element
carries classes `container` and `collapsible` and has an ancestor with
class `checklist`. -/
def matchesSelector (c : Container) : Bool :=
  c.underChecklist && c.hasContainerClass && c.hasCollapsibleClass

/-- What `initCollapsible` does to one matched container: attach one more
click handler (`$container.on('click', ...)`) and hide every descendant
`pre` (`$container.find('pre').hide()`). -/
def initContainer (c : Container) : Container :=
  { c with handlers := c.handlers + 1, pres := c.pres.map (fun _ => false) }

/-- `initCollapsible()`: act on every container matched by the selector,
leave the rest alone. -/
def initCollapsible (d : List Container) : List Container :=
  d.map (fun c => if matchesSelector c then initContainer c else c)

/-- What a click event's target can be, as far as the handler's guard
distinguishes: a checkbox input, a `pre` element, or anything else. -/
inductive ClickTarget where
  | checkbox : ClickTarget
  | preElem : ClickTarget
  | other : ClickTarget
deriving DecidableEq, Repr

/-- A click event: its target kind and `window.getSelection().toString()`
at dispatch time. -/
structure ClickEvent where
  target : ClickTarget
  selection : String
deriving DecidableEq, Repr

/-- The handler's early-return guard: target is a checkbox input, target is
a `pre`, or the page's text selection is non-empty (a non-empty string is
truthy in JS). -/
def guardIgnores (e : ClickEvent) : Bool :=
  (e.target == ClickTarget.checkbox) || (e.target == ClickTarget.preElem)
    || !(e.selection == "")

/-- The handler's effect past the guard: `toggleClass('active')` and
`find('pre').slideToggle(200)` (eventual visibility flip of every
descendant `pre`). -/
def handlerBody (c : Container) : Container :=
  { c with active := !c.active, pres := c.pres.map (fun v => !v) }

/-- Run `n` copies of the attached click handler in order on one event.
Each copy re-evaluates the guard; past the guard it mutates the container
and calls `e.stopPropagation()`.  The Bool of the result records whether
any handler stopped propagation. -/
def runHandlers : Nat → ClickEvent → Container → Container × Bool
  | 0, _, c => (c, false)
  | n + 1, e, c =>
    if guardIgnores e then runHandlers n e c
    else
      let r := runHandlers n e (handlerBody c)
      (r.fst, true)

/-- Dispatch a click on a container: jQuery fires every handler attached to
it (stopPropagation does not suppress same-element handlers). -/
def click (c : Container) (e : ClickEvent) : Container × Bool :=
  runHandlers c.handlers e c

/-- Page load: `$(document).ready` runs `initCollapsible()` once. -/
def pageLoad (d : List Container) : List Container :=
  initCollapsible d

/-- Insert a container into the page.  If the insertion happens under an
element with class `checklist`, the delegated `DOMNodeInserted` handler
fires and re-runs `initCollapsible()` on the whole page. -/
def insertContainer (d : List Container) (c : Container) : List Container :=
  let d₁ := d ++ [c]
  if c.underChecklist then initCollapsible d₁ else d₁

/-- Every descendant `pre` of the container is in the hidden state. -/
def allHidden (c : Container) : Bool :=
  c.pres.all (fun v => !v)

lemma runHandlers_of_guard (n : Nat) (e : ClickEvent) (c : Container)
    (h : guardIgnores e = true) : runHandlers n e c = (c, false) := by
  induction n with
  | zero => rfl
  | succ n ih => simp [runHandlers, h, ih]

lemma runHandlers_of_not_guard (n : Nat) (e : ClickEvent) (c : Container)
    (h : guardIgnores e = false) :
    runHandlers n e c = (handlerBody^[n] c, n != 0) := by
  induction n generalizing c with
  | zero => rfl
  | succ n ih =>
    simp [runHandlers, h, ih, Function.iterate_succ_apply]

lemma allHidden_initContainer (c : Container) : allHidden (initContainer c) = true := by
  simp [allHidden, initContainer, List.all_map]

lemma initCollapsible_preserves_allHidden (d : List Container)
    (h : ∀ c ∈ d, allHidden c = true) :
    ∀ c ∈ initCollapsible d, allHidden c = true := by
  intro c hc
  obtain ⟨c₀, hc₀, rfl⟩ := List.mem_map.mp hc
  by_cases hm : matchesSelector c₀ = true
  · simp [hm, allHidden_initContainer]
  · simp only [Bool.not_eq_true] at hm
    simpa [hm] using h c₀ hc₀

end CollapsibleChecklist

namespace CollapsibleChecklist

/-- C2: after initialization runs, every container matched by the marker
selectors has all of its preformatted elements in the hidden display
state. -/
theorem C2_init_hides_matching (d : List Container) (c : Container)
    (hc : c ∈ initCollapsible d) (hm : matchesSelector c = true) :
    allHidden c = true := by
  obtain ⟨c₀, _, rfl⟩ := List.mem_map.mp hc
  by_cases h₀ : matchesSelector c₀ = true
  · simp [h₀, allHidden_initContainer]
  · simp only [Bool.not_eq_true] at h₀
    simp [h₀] at hm

/-- Witness for C2 at a concrete page: one matching container with a
visible preformatted block, initialized once. -/
theorem C2_init_hides_matching_witness :
    allHidden ⟨true, true, true, false, [false], 1⟩ = true :=
  C2_init_hides_matching [⟨true, true, true, false, [true], 0⟩]
    ⟨true, true, true, false, [false], 1⟩ (by decide) (by decide)

/-- C3: if the click target is a checkbox input or a preformatted element,
or the page's text selection is non-empty, the handler changes nothing:
the container (active class and all pre visibilities) is returned
untouched and propagation is not stopped. -/
theorem C3_guarded_click_no_change (c : Container) (e : ClickEvent)
    (h : guardIgnores e = true) : click c e = (c, false) := by
  simp [click, runHandlers_of_guard _ _ _ h]

/-- Witness for C3: a click on a checkbox inside an initialized container
leaves it unchanged. -/
theorem C3_guarded_click_no_change_witness :
    click ⟨true, true, true, false, [false], 1⟩ ⟨ClickTarget.checkbox, ""⟩
      = (⟨true, true, true, false, [false], 1⟩, false) :=
  C3_guarded_click_no_change ⟨true, true, true, false, [false], 1⟩
    ⟨ClickTarget.checkbox, ""⟩ (by decide)

/-- C4: re-initialization is idempotent for visibility: if every container
of the page has all its preformatted blocks hidden, then after any number
of further `initCollapsible` runs they are all still hidden. -/
theorem C4_reinit_keeps_hidden (d : List Container)
    (h : ∀ c ∈ d, allHidden c = true) (n : Nat) :
    ∀ c ∈ initCollapsible^[n] d, allHidden c = true := by
  induction n generalizing d with
  | zero => simpa using h
  | succ n ih =>
    rw [Function.iterate_succ_apply]
    exact ih (initCollapsible d) (initCollapsible_preserves_allHidden d h)

/-- Witness for C4: a page with one already-initialized hidden container,
re-initialized three more times, is still hidden. -/
theorem C4_reinit_keeps_hidden_witness :
    allHidden ⟨true, true, true, true, [false], 4⟩ = true :=
  C4_reinit_keeps_hidden [⟨true, true, true, true, [false], 1⟩] (by decide) 3
    ⟨true, true, true, true, [false], 4⟩ (by decide)

/-- C8: a qualifying click (target neither a checkbox nor a `pre`,
selection empty) on a container with at least one attached handler stops
the event from propagating up the document tree. -/
theorem C8_qualifying_click_stops_propagation (c : Container) (e : ClickEvent)
    (hg : guardIgnores e = false) (hh : 1 ≤ c.handlers) :
    (click c e).snd = true := by
  rcases hn : c.handlers with _ | n
  · omega
  · simp [click, hn, runHandlers, hg]

/-- Witness for C8: a plain click on an initialized container with empty
selection stops propagation. -/
theorem C8_qualifying_click_stops_propagation_witness :
    (click ⟨true, true, true, false, [false], 1⟩ ⟨ClickTarget.other, ""⟩).snd = true :=
  C8_qualifying_click_stops_propagation ⟨true, true, true, false, [false], 1⟩
    ⟨ClickTarget.other, ""⟩ (by decide) (by decide)

/-- C9: when no element of the page matches the marker selectors,
initialization is an inert no-op (the page is returned unchanged, and the
embedding is a total function, so no error is raised); moreover on a
matching container with no preformatted descendant the hide matches zero
elements, leaving the visible state (active class, pre list) unchanged. -/
theorem C9_no_match_inert (d : List Container)
    (h : ∀ c ∈ d, matchesSelector c = false)
    (c : Container) (hp : c.pres = []) :
    initCollapsible d = d
      ∧ (initContainer c).active = c.active ∧ (initContainer c).pres = [] := by
  refine ⟨?_, rfl, by simp [initContainer, hp]⟩
  induction d with
  | nil => rfl
  | cons a t ih =>
    have ha : matchesSelector a = false := h a (by simp)
    have ht : ∀ c ∈ t, matchesSelector c = false := fun c hc => h c (by simp [hc])
    simp [initCollapsible, ha] at ih ⊢
    exact ih ht

/-- Witness for C9: a page whose only container lacks the marker classes
is untouched, and a matching container without any `pre` keeps its
visible state. -/
theorem C9_no_match_inert_witness :
    initCollapsible [⟨false, true, false, true, [true], 0⟩]
        = [⟨false, true, false, true, [true], 0⟩]
      ∧ (initContainer ⟨true, true, true, true, [], 0⟩).active
          = Container.active ⟨true, true, true, true, [], 0⟩
      ∧ (initContainer ⟨true, true, true, true, [], 0⟩).pres = [] :=
  C9_no_match_inert [⟨false, true, false, true, [true], 0⟩] (by decide)
    ⟨true, true, true, true, [], 0⟩ (by decide)

/-- C10: re-initialization (as triggered by content insertion) hides the
preformatted blocks of every matching container, including one currently
in the active (expanded) state, while leaving its active class unchanged:
the container ends up active with its pres hidden. -/
theorem C10_reinit_hides_but_keeps_active (d : List Container) (i : Nat)
    (c : Container) (h : d[i]? = some c)
    (hm : matchesSelector c = true) (ha : c.active = true) :
    (initCollapsible d)[i]? = some (initContainer c)
      ∧ (initContainer c).active = true
      ∧ allHidden (initContainer c) = true := by
  refine ⟨?_, by simpa [initContainer] using ha, allHidden_initContainer c⟩
  simp [initCollapsible, List.getElem?_map, h, hm]

/-- Witness for C10: an expanded (active, visible) container is re-hidden
by re-initialization yet stays active. -/
theorem C10_reinit_hides_but_keeps_active_witness :
    (initCollapsible [⟨true, true, true, true, [true], 1⟩])[0]?
        = some (initContainer ⟨true, true, true, true, [true], 1⟩)
      ∧ (initContainer ⟨true, true, true, true, [true], 1⟩).active = true
      ∧ allHidden (initContainer ⟨true, true, true, true, [true], 1⟩) = true :=
  C10_reinit_hides_but_keeps_active [⟨true, true, true, true, [true], 1⟩] 0
    ⟨true, true, true, true, [true], 1⟩ (by decide) (by decide) (by decide)

/-- C5: a matching container inserted after page load is initialized by
the `DOMNodeInserted` re-run into exactly the state a statically present
container reaches at page load, and a qualifying click on it performs the
same single toggle (active flipped, every pre flipped, propagation
stopped). -/
theorem C5_inserted_behaves_like_static (d : List Container) (c : Container)
    (e : ClickEvent) (hm : matchesSelector c = true) (hz : c.handlers = 0)
    (hg : guardIgnores e = false) :
    (insertContainer d c).getLast? = some (initContainer c)
      ∧ (pageLoad [c]).getLast? = some (initContainer c)
      ∧ click (initContainer c) e = (handlerBody (initContainer c), true) := by
  have hu : c.underChecklist = true := by
    simp [matchesSelector, Bool.and_eq_true] at hm
    exact hm.1.1
  refine ⟨?_, ?_, ?_⟩
  · simp only [insertContainer, hu, if_pos, initCollapsible, List.map_append,
      List.map_cons, List.map_nil, hm]
    exact List.getLast?_concat _
  · simp [pageLoad, initCollapsible, hm]
  · simp [click, initContainer, hz, runHandlers, hg]

/-- Witness for C5 at a concrete page: a fresh matching container inserted
into a one-container page. -/
theorem C5_inserted_behaves_like_static_witness :
    (insertContainer [⟨true, true, true, false, [false], 1⟩]
          ⟨true, true, true, false, [true], 0⟩).getLast?
        = some (initContainer ⟨true, true, true, false, [true], 0⟩)
      ∧ (pageLoad [⟨true, true, true, false, [true], 0⟩]).getLast?
        = some (initContainer ⟨true, true, true, false, [true], 0⟩)
      ∧ click (initContainer ⟨true, true, true, false, [true], 0⟩)
            ⟨ClickTarget.other, ""⟩
        = (handlerBody (initContainer ⟨true, true, true, false, [true], 0⟩), true) :=
  C5_inserted_behaves_like_static [⟨true, true, true, false, [false], 1⟩]
    ⟨true, true, true, false, [true], 0⟩ ⟨ClickTarget.other, ""⟩
    (by decide) (by decide) (by decide)

/-- Counterexample to C1 as stated: `initCollapsible` attaches a fresh
click handler on every run and `stopPropagation` does not suppress other
handlers on the same element, so after initialization has run twice on a
container, one qualifying click (target `other`, empty selection) runs the
toggle twice: the active class and the pre visibility end up unchanged —
not toggled exactly once. -/
theorem C1_counterexample :
    initCollapsible (initCollapsible [⟨true, true, true, false, [true], 0⟩])
        = [⟨true, true, true, false, [false], 2⟩]
      ∧ (click ⟨true, true, true, false, [false], 2⟩ ⟨ClickTarget.other, ""⟩).fst
        = ⟨true, true, true, false, [false], 2⟩ := by
  decide

/-- C1 as amended: a qualifying click runs the toggle (flip of the active
class and of every pre's visibility) once per click handler attached to
the container, i.e. once per initialization run on it — so exactly once
precisely when initialization has run exactly once. -/
theorem C1_amended_toggle_once_per_init (c : Container) (e : ClickEvent)
    (hg : guardIgnores e = false) :
    click c e = (handlerBody^[c.handlers] c, c.handlers != 0) :=
  runHandlers_of_not_guard c.handlers e c hg

/-- Witness for the amended C1: a once-initialized container, one
qualifying click, one toggle. -/
theorem C1_amended_toggle_once_per_init_witness :
    click ⟨true, true, true, false, [false], 1⟩ ⟨ClickTarget.other, ""⟩
      = (handlerBody^[Container.handlers ⟨true, true, true, false, [false], 1⟩]
            ⟨true, true, true, false, [false], 1⟩,
          Container.handlers ⟨true, true, true, false, [false], 1⟩ != 0) :=
  C1_amended_toggle_once_per_init ⟨true, true, true, false, [false], 1⟩
    ⟨ClickTarget.other, ""⟩ (by decide)

/-- Counterexample to C6 as stated: `find('pre')` selects every descendant
`pre`, not exactly one.  On a container with two visible pres, the initial
hide hides both, and a qualifying click toggles both — two elements, not
exactly one, are the target of the show/hide operations. -/
theorem C6_counterexample :
    initCollapsible [⟨true, true, true, false, [true, true], 0⟩]
        = [⟨true, true, true, false, [false, false], 1⟩]
      ∧ (click ⟨true, true, true, false, [false, false], 1⟩
            ⟨ClickTarget.other, ""⟩).fst.pres
        = [true, true] := by
  decide

/-- C6 as amended: the show/hide operations target every preformatted
descendant of the container — the initial hide keeps the pre list's length
and hides all of them, and a qualifying click on a once-initialized
container again keeps the length and shows all of them; so exactly one
element is targeted exactly when the container has exactly one pre. -/
theorem C6_amended_all_pres_targeted (c : Container) (e : ClickEvent)
    (hz : c.handlers = 0) (hg : guardIgnores e = false) :
    (initContainer c).pres.length = c.pres.length
      ∧ allHidden (initContainer c) = true
      ∧ (click (initContainer c) e).fst.pres.length = c.pres.length
      ∧ ∀ p ∈ (click (initContainer c) e).fst.pres, p = true := by
  refine ⟨by simp [initContainer], allHidden_initContainer c, ?_, ?_⟩
  · simp [click, initContainer, hz, runHandlers, hg, handlerBody]
  · intro p hp
    simp [click, initContainer, hz, runHandlers, hg, handlerBody] at hp
    obtain ⟨_, _, rfl⟩ := hp
    rfl

/-- Witness for the amended C6: a container with two pres, both hidden by
initialization and both shown by the first qualifying click. -/
theorem C6_amended_all_pres_targeted_witness :
    (initContainer ⟨true, true, true, false, [true, true], 0⟩).pres.length
        = (Container.pres ⟨true, true, true, false, [true, true], 0⟩).length
      ∧ allHidden (initContainer ⟨true, true, true, false, [true, true], 0⟩) = true
      ∧ (click (initContainer ⟨true, true, true, false, [true, true], 0⟩)
            ⟨ClickTarget.other, ""⟩).fst.pres.length
        = (Container.pres ⟨true, true, true, false, [true, true], 0⟩).length
      ∧ ∀ p ∈ (click (initContainer ⟨true, true, true, false, [true, true], 0⟩)
            ⟨ClickTarget.other, ""⟩).fst.pres, p = true :=
  C6_amended_all_pres_targeted ⟨true, true, true, false, [true, true], 0⟩
    ⟨ClickTarget.other, ""⟩ (by decide) (by decide)

/-- Counterexample to C7 as stated: an element carrying both marker
classes (`container` and `collapsible`) but with no ancestor of class
`checklist` is not matched by the selector `.checklist .container.collapsible`:
initialization leaves it completely untouched (its pre stays visible, no
handler is attached), refuting the claimed "if" direction. -/
theorem C7_counterexample :
    initCollapsible [⟨false, true, true, false, [true], 0⟩]
      = [⟨false, true, true, false, [true], 0⟩] := by
  decide

/-- C7 as amended: an element is recognized by initialization (it receives
the initial hide and one more click handler, i.e. it is mapped to
`initContainer`) if and only if it carries both marker classes AND lies
under an ancestor carrying the `checklist` class. -/
theorem C7_amended_recognized_iff (c : Container) :
    (initCollapsible [c]).getLast? = some (initContainer c)
      ↔ (c.underChecklist && c.hasContainerClass && c.hasCollapsibleClass) = true := by
  by_cases hm : matchesSelector c = true
  · constructor
    · intro _
      simpa [matchesSelector] using hm
    · intro _
      simp [initCollapsible, hm]
  · simp only [Bool.not_eq_true] at hm
    constructor
    · intro h
      exfalso
      simp [initCollapsible, hm] at h
      have hh := congrArg Container.handlers h
      simp [initContainer] at hh
    · intro h
      exfalso
      rw [show (c.underChecklist && c.hasContainerClass && c.hasCollapsibleClass)
            = matchesSelector c from rfl] at h
      rw [hm] at h
      exact Bool.false_ne_true h

end CollapsibleChecklist
